import Mathlib

/-!
Shallow embedding of the parking-garage control system
(`src/core/models/veiculo.py`, `src/core/models/evento.py`,
`src/core/servidor_central.py`, `src/core/services/placar_service.py`,
`src/core/services/lpr_service.py`).

Modelling conventions:
- Python `datetime` timestamps are modelled at one-second granularity as
  integers (seconds since an arbitrary epoch); `timedelta.total_seconds()`
  is then the integer difference of the two timestamps.
- Python `float` money/rate values are modelled as rationals (`ℚ`).
- Python `int(x)` on a real value truncates toward zero; on an integer
  quotient of nonnegative operands this is `Int.tdiv`.  Python `%` returns
  a result with the sign of the divisor, which is `Int.emod`.
- Python `dict` keyed by plate strings is modelled as an association list
  `List (String × Veiculo)` with `List.lookup`.
- Python strings are modelled as their lists of characters (`List Char`);
  the character-class tests `str.isalpha` / `str.isdigit` are modelled by
  `Char.isAlpha` / `Char.isDigit` (the ASCII fragment, which is the
  fragment the plate format is about).
-/

namespace Estacionamento

/-! ## Veiculo (`src/core/models/veiculo.py`) -/

inductive StatusVeiculo where
  | estacionado
  | saiu
  | bloqueado
  deriving DecidableEq, Repr

structure Veiculo where
  placa : String
  timestamp_entrada : Int
  timestamp_saida : Option Int := none
  andar : String := "terreo"
  vaga : Option Int := none
  status : StatusVeiculo := .estacionado
  valor_calculado : Option ℚ := none
  tempo_permanencia_minutos : Option Int := none
  deriving DecidableEq, Repr

/-- `Veiculo.calcular_tempo_permanencia`: `delta = saida - entrada` seconds,
`minutos = int(delta.total_seconds() / 60)` (truncation toward zero), plus one
if `delta.total_seconds() % 60 > 0` (Python `%`, sign of the divisor). -/
def Veiculo.calcular_tempo_permanencia (v : Veiculo) (timestamp_saida : Int) : Int :=
  let delta : Int := timestamp_saida - v.timestamp_entrada
  let minutos : Int := delta.tdiv 60
  if delta.emod 60 > 0 then minutos + 1 else minutos

/-- `Veiculo.calcular_valor`: returns `valor_minimo` when no duration is set,
otherwise `max(tempo * preco_por_minuto, valor_minimo)`. -/
def Veiculo.calcular_valor (v : Veiculo) (preco_por_minuto valor_minimo : ℚ) : ℚ :=
  match v.tempo_permanencia_minutos with
  | none => valor_minimo
  | some tempo => max (tempo * preco_por_minuto) valor_minimo

/-- `Veiculo.processar_saida`: sets exit timestamp, duration, fee and status,
returning the updated vehicle (the Python method mutates `self` and returns a
result dict whose fields are all readable off the updated vehicle). -/
def Veiculo.processar_saida (v : Veiculo) (timestamp_saida : Int)
    (preco_por_minuto valor_minimo : ℚ) : Veiculo :=
  let tempo := v.calcular_tempo_permanencia timestamp_saida
  let v' := { v with
    timestamp_saida := some timestamp_saida,
    tempo_permanencia_minutos := some tempo }
  { v' with
    valor_calculado := some (v'.calcular_valor preco_por_minuto valor_minimo),
    status := .saiu }

/-! ## Evento (`src/core/models/evento.py`) -/

inductive TipoEvento where
  | entrada
  | saida
  | erro
  | manutencao
  deriving DecidableEq, Repr

inductive StatusEvento where
  | pendente
  | processando
  | concluido
  | erro
  deriving DecidableEq, Repr

structure Evento where
  placa : String
  tipo : TipoEvento
  timestamp : Int
  confianca_lpr : ℚ
  andar : String := "terreo"
  status : StatusEvento := .pendente
  valor_calculado : Option ℚ := none
  tempo_permanencia_minutos : Option Int := none
  erro_descricao : Option String := none
  deriving DecidableEq, Repr

structure EventoResposta where
  evento_id : String
  sucesso : Bool
  acao : String
  valor : Option ℚ := none
  tempo_permanencia : Option Int := none
  mensagem : Option String := none
  deriving DecidableEq, Repr

/-! ## ServidorCentral (`src/core/servidor_central.py`)

The server state: the billing configuration, the in-memory map of parked
vehicles (a Python dict keyed by plate, modelled as an association list in
insertion order), the two administrative flags, and the `eventos` table of
the SQLite database (append-only, modelled as a list of rows).  The
`veiculos` table is write-only from the perspective of every claim here and
is not part of the model.  Locally generated response ids
(`evt_<wall clock>`) are modelled by the constant id `"evt_local"`, and the
SQLite `lastrowid` by the row count after the insert. -/

structure ServidorCentral where
  preco_por_minuto : ℚ := 15/100
  valor_minimo : ℚ := 2
  veiculos_estacionados : List (String × Veiculo) := []
  estacionamento_fechado : Bool := false
  andar_bloqueado : Bool := false
  eventos : List Evento := []
  deriving DecidableEq, Repr

/-- `ServidorCentral._salvar_evento`: inserts the event row and returns the
id of the new row (`lastrowid`). -/
def ServidorCentral.salvar_evento (s : ServidorCentral) (evento : Evento) :
    ServidorCentral × String :=
  ({ s with eventos := s.eventos ++ [evento] }, toString (s.eventos.length + 1))

/-- `ServidorCentral._processar_entrada`. -/
def ServidorCentral.processar_entrada (s : ServidorCentral) (evento : Evento) :
    ServidorCentral × EventoResposta :=
  let placa := evento.placa
  if (s.veiculos_estacionados.lookup placa).isSome then
    let r := s.salvar_evento evento
    (r.1, { evento_id := r.2, sucesso := false, acao := "negar_entrada",
            mensagem := some "Veículo já está estacionado" })
  else
    let veiculo : Veiculo :=
      { placa := placa, timestamp_entrada := evento.timestamp, andar := evento.andar }
    let s1 := { s with veiculos_estacionados := s.veiculos_estacionados ++ [(placa, veiculo)] }
    let r := s1.salvar_evento { evento with status := .concluido }
    (r.1, { evento_id := r.2, sucesso := true, acao := "abrir_cancela",
            mensagem := some "Entrada autorizada" })

/-- `ServidorCentral._processar_saida`.  The numeric formatting inside the
Python success message (`"Valor a pagar: R$ ..."`) is elided. -/
def ServidorCentral.processar_saida (s : ServidorCentral) (evento : Evento) :
    ServidorCentral × EventoResposta :=
  let placa := evento.placa
  match s.veiculos_estacionados.lookup placa with
  | none =>
    let r := s.salvar_evento evento
    (r.1, { evento_id := r.2, sucesso := false, acao := "negar_saida",
            mensagem := some "Veículo não encontrado" })
  | some veiculo =>
    let v := veiculo.processar_saida evento.timestamp s.preco_por_minuto s.valor_minimo
    let evento1 := { evento with
      valor_calculado := v.valor_calculado,
      tempo_permanencia_minutos := v.tempo_permanencia_minutos,
      status := StatusEvento.concluido }
    let s1 := { s with
      veiculos_estacionados := s.veiculos_estacionados.filter (fun p => p.1 ≠ placa) }
    let r := s1.salvar_evento evento1
    (r.1, { evento_id := r.2, sucesso := true, acao := "cobrar_valor",
            valor := v.valor_calculado,
            tempo_permanencia := v.tempo_permanencia_minutos,
            mensagem := some "Valor a pagar" })

/-- `ServidorCentral._processar_evento`, after JSON decoding succeeded:
the garage-closed check, then the floor-blocked check, then the dispatch on
the event kind. -/
def ServidorCentral.processar_evento (s : ServidorCentral) (evento : Evento) :
    ServidorCentral × EventoResposta :=
  if s.estacionamento_fechado then
    (s, { evento_id := "evt_local", sucesso := false, acao := "negar_entrada",
          mensagem := some "Estacionamento fechado" })
  else if s.andar_bloqueado && (evento.andar == "terreo") then
    (s, { evento_id := "evt_local", sucesso := false, acao := "negar_entrada",
          mensagem := some "Andar bloqueado" })
  else
    match evento.tipo with
    | .entrada => s.processar_entrada evento
    | .saida => s.processar_saida evento
    | _ =>
      (s, { evento_id := "evt_local", sucesso := false, acao := "erro",
            mensagem := some "Tipo de evento não suportado" })

/-- One inbound line on a connection, after `data.decode().strip()`: either
`json.loads` fails (`malformada`) or it yields the parsed event. -/
inductive Mensagem where
  | malformada (raw : String)
  | valida (dados : Evento)
  deriving DecidableEq, Repr

/-- One iteration of the `while True` loop of
`ServidorCentral._handle_cliente`: a malformed message is logged and
produces no reply; a valid one is processed and its response written back. -/
def ServidorCentral.handle_mensagem (s : ServidorCentral) (m : Mensagem) :
    ServidorCentral × Option EventoResposta :=
  match m with
  | .malformada _ => (s, none)
  | .valida dados =>
    let r := s.processar_evento dados
    (r.1, some r.2)

/-- The `while True` loop of `ServidorCentral._handle_cliente` over the
sequence of lines received on one connection, collecting the reply lines
written back in order. -/
def ServidorCentral.handle_cliente (s : ServidorCentral) :
    List Mensagem → ServidorCentral × List EventoResposta
  | [] => (s, [])
  | m :: rest =>
    let r := s.handle_mensagem m
    let t := ServidorCentral.handle_cliente r.1 rest
    (t.1, match r.2 with
          | none => t.2
          | some resposta => resposta :: t.2)

/-! ## PlacarService (`src/core/services/placar_service.py`)

The slot board: `vagas` is the Python dict with keys `0 .. total_vagas - 1`
(True = occupied), modelled as a list of booleans indexed by slot number;
`vagas_livres` is the maintained free-slot counter.  `ocupar_vaga` and
`liberar_vaga` take the slot number as the Python `int` argument (so an
arbitrary integer) and return the success flag; the scheduled display
refresh (`asyncio.create_task(self._atualizar_placar())`) touches no slot
state and is elided. -/

structure PlacarService where
  total_vagas : Int
  vagas : List Bool
  vagas_livres : Int
  deriving DecidableEq, Repr

/-- The `PlacarService.__init__` state: every slot free, free counter at the
total (the default total in the source is 8). -/
def PlacarService.init (total_vagas : Nat) : PlacarService :=
  { total_vagas := total_vagas,
    vagas := List.replicate total_vagas false,
    vagas_livres := total_vagas }

/-- `PlacarService.ocupar_vaga`. -/
def PlacarService.ocupar_vaga (p : PlacarService) (numero_vaga : Int) :
    PlacarService × Bool :=
  if numero_vaga < 0 ∨ numero_vaga ≥ p.total_vagas then (p, false)
  else if p.vagas.getD numero_vaga.toNat false then (p, false)
  else ({ p with
            vagas := p.vagas.set numero_vaga.toNat true,
            vagas_livres := p.vagas_livres - 1 }, true)

/-- `PlacarService.liberar_vaga`. -/
def PlacarService.liberar_vaga (p : PlacarService) (numero_vaga : Int) :
    PlacarService × Bool :=
  if numero_vaga < 0 ∨ numero_vaga ≥ p.total_vagas then (p, false)
  else if !(p.vagas.getD numero_vaga.toNat false) then (p, false)
  else ({ p with
            vagas := p.vagas.set numero_vaga.toNat false,
            vagas_livres := p.vagas_livres + 1 }, true)

/-- The slot-board states reachable from the initial all-free state by any
sequence of `ocupar_vaga` / `liberar_vaga` calls. -/
inductive PlacarReachable (total : Nat) : PlacarService → Prop where
  | init : PlacarReachable total (PlacarService.init total)
  | ocupar (p : PlacarService) (n : Int) :
      PlacarReachable total p → PlacarReachable total (p.ocupar_vaga n).1
  | liberar (p : PlacarService) (n : Int) :
      PlacarReachable total p → PlacarReachable total (p.liberar_vaga n).1

/-! ## LPRService (`src/core/services/lpr_service.py`)

`LPRService.validar_placa`, on the character list of the captured plate
string.  The `confianca_minima` parameter of the Python method is accepted
but never read by the body, so it does not appear here.  `str.isalpha` /
`str.isdigit` on the 3- and 4-character slices are `List.all` of the
per-character classes (and the slices are never empty once the length check
passed, so the emptiness clause of the Python methods cannot fire). -/

def validar_placa (placa : List Char) : Bool :=
  if placa.isEmpty then false
  else if placa.length ≠ 7 then false
  else if ¬ (placa.take 3).all Char.isAlpha then false
  else if ¬ (placa.drop 3).all Char.isDigit then false
  else true

/-- The canonical plate format as the spec words it: exactly 3 **uppercase**
letters followed by exactly 4 digits, 7 characters total.  Stated from the
spec, to be compared with `validar_placa`. -/
def placaFormatoCanonico (placa : List Char) : Bool :=
  placa.length == 7 &&
  (placa.take 3).all (fun c => c.isUpper) &&
  (placa.drop 3).all (fun c => c.isDigit)

/-! ## Sample states and events used by witnesses and counterexamples -/

def veiculoABC : Veiculo := { placa := "ABC1234", timestamp_entrada := 0 }

def eventoEntradaABC : Evento :=
  { placa := "ABC1234", tipo := .entrada, timestamp := 0, confianca_lpr := 95/100 }

def eventoSaidaABC : Evento :=
  { placa := "ABC1234", tipo := .saida, timestamp := 1800, confianca_lpr := 95/100 }

def servidorInicial : ServidorCentral := {}

def servidorComABC : ServidorCentral :=
  { veiculos_estacionados := [("ABC1234", veiculoABC)] }

def servidorFechado : ServidorCentral :=
  { estacionamento_fechado := true, veiculos_estacionados := [("ABC1234", veiculoABC)] }

end Estacionamento

namespace Estacionamento

/-! ## Theorems for C1 and C2 -/

/-- The branch structure of `calcular_tempo_permanencia` computes exactly the
rational ceiling of `s / 60`, for nonnegative elapsed seconds `s`. -/
theorem tempo_branch_eq_ceil (s : Int) (hs : 0 ≤ s) :
    (if s.emod 60 > 0 then s.tdiv 60 + 1 else s.tdiv 60) = ⌈((s : ℚ) / 60)⌉ := by
  have htdiv : s.tdiv 60 = s / 60 := Int.tdiv_eq_ediv hs (by norm_num)
  have hceil : ⌈((s : ℚ) / 60)⌉ = -((-s) / 60) := by
    have h1 : ((s : ℚ) / 60) = -(((-s : ℤ) : ℚ) / ((60 : ℕ) : ℚ)) := by push_cast; ring
    rw [h1, Int.ceil_neg, Rat.floor_intCast_div_natCast]
    norm_num
  have hmod : s.emod 60 = s % 60 := rfl
  rw [htdiv, hceil, hmod]
  by_cases hrem : s % 60 > 0
  · rw [if_pos hrem]
    omega
  · rw [if_neg hrem]
    omega

/-- **C1.** For every entry timestamp and every exit timestamp not earlier
than it, `Veiculo.calcular_tempo_permanencia` equals the ceiling of the
elapsed seconds divided by 60: a non-zero remainder rounds the minute count
up and an exact multiple of 60 seconds does not. -/
theorem calcular_tempo_permanencia_eq_ceil (v : Veiculo) (saida : Int)
    (h : v.timestamp_entrada ≤ saida) :
    v.calcular_tempo_permanencia saida = ⌈(((saida - v.timestamp_entrada) : ℚ) / 60)⌉ := by
  simp only [Veiculo.calcular_tempo_permanencia]
  have hs0 : 0 ≤ saida - v.timestamp_entrada := by omega
  have := tempo_branch_eq_ceil (saida - v.timestamp_entrada) hs0
  push_cast at this ⊢
  exact this

/-- Closed witness for C1: entry at second 0, exit 65 min 30 s later
(3930 s) gives 66 minutes, and an exact hour (3600 s) gives 60. -/
theorem calcular_tempo_permanencia_eq_ceil_witness :
    ({ placa := "ABC1234", timestamp_entrada := 0 : Veiculo }.calcular_tempo_permanencia 3930
      = ⌈((3930 - 0 : ℚ)) / 60⌉) ∧
    ({ placa := "ABC1234", timestamp_entrada := 0 : Veiculo }.calcular_tempo_permanencia 3930 = 66) := by
  constructor
  · have := calcular_tempo_permanencia_eq_ceil
      { placa := "ABC1234", timestamp_entrada := 0 } 3930 (by decide)
    simpa using this
  · decide

/-- **C2.** For every duration in minutes, per-minute rate and minimum fee,
`Veiculo.calcular_valor` equals `max(minutes * rate, minimum)`; with rate
0.15 and minimum 2.00, 10 minutes gives 2.00, 20 minutes gives 3.00 and 30
minutes gives 4.50. -/
theorem calcular_valor_eq_max :
    (∀ (v : Veiculo) (t : Int) (preco minimo : ℚ),
      v.tempo_permanencia_minutos = some t →
        v.calcular_valor preco minimo = max (t * preco) minimo) ∧
    ({ placa := "ABC1234", timestamp_entrada := 0,
       tempo_permanencia_minutos := some 10 : Veiculo }.calcular_valor (15/100) 2 = 2) ∧
    ({ placa := "ABC1234", timestamp_entrada := 0,
       tempo_permanencia_minutos := some 20 : Veiculo }.calcular_valor (15/100) 2 = 3) ∧
    ({ placa := "ABC1234", timestamp_entrada := 0,
       tempo_permanencia_minutos := some 30 : Veiculo }.calcular_valor (15/100) 2 = 9/2) := by
  refine ⟨?_, by norm_num [Veiculo.calcular_valor], by norm_num [Veiculo.calcular_valor],
    by norm_num [Veiculo.calcular_valor]⟩
  intro v t preco minimo ht
  simp [Veiculo.calcular_valor, ht]

/-- Closed witness for C2: the general clause applied at duration 20,
rate 0.15, minimum 2.00. -/
theorem calcular_valor_eq_max_witness :
    { placa := "ABC1234", timestamp_entrada := 0,
      tempo_permanencia_minutos := some 20 : Veiculo }.calcular_valor (15/100) 2
      = max ((20 : Int) * (15/100 : ℚ)) 2 :=
  calcular_valor_eq_max.1 _ 20 (15/100) 2 rfl

/-! ## Theorems for C3, C4, C5, C10 -/

/-- **C3.** If the garage-closed and floor-blocked checks do not fire and the
plate of an Entry event is already in the parked-vehicle map, processing it
replies `sucesso = false`, `acao = "negar_entrada"`, and the parked-vehicle
map is unchanged (no second record is created for the plate). -/
theorem processar_evento_entrada_ja_estacionado (s : ServidorCentral) (e : Evento)
    (hfech : s.estacionamento_fechado = false)
    (hbloq : (s.andar_bloqueado && (e.andar == "terreo")) = false)
    (htipo : e.tipo = .entrada)
    (hpark : (s.veiculos_estacionados.lookup e.placa).isSome = true) :
    (s.processar_evento e).2.sucesso = false ∧
    (s.processar_evento e).2.acao = "negar_entrada" ∧
    (s.processar_evento e).1.veiculos_estacionados = s.veiculos_estacionados := by
  simp [ServidorCentral.processar_evento, ServidorCentral.processar_entrada,
    ServidorCentral.salvar_evento, hfech, hbloq, htipo, hpark]

/-- Closed witness for C3: a server with "ABC1234" parked denies a second
entry of "ABC1234" and keeps its map. -/
theorem processar_evento_entrada_ja_estacionado_witness :
    (servidorComABC.processar_evento eventoEntradaABC).2.sucesso = false ∧
    (servidorComABC.processar_evento eventoEntradaABC).2.acao = "negar_entrada" ∧
    (servidorComABC.processar_evento eventoEntradaABC).1.veiculos_estacionados =
      servidorComABC.veiculos_estacionados :=
  processar_evento_entrada_ja_estacionado servidorComABC eventoEntradaABC rfl rfl rfl rfl

/-- **C4.** If the garage-closed and floor-blocked checks do not fire and the
plate of an Exit event is absent from the parked-vehicle map, processing it
replies `sucesso = false`, `acao = "negar_saida"`, and the parked-vehicle map
is unchanged. -/
theorem processar_evento_saida_nao_encontrado (s : ServidorCentral) (e : Evento)
    (hfech : s.estacionamento_fechado = false)
    (hbloq : (s.andar_bloqueado && (e.andar == "terreo")) = false)
    (htipo : e.tipo = .saida)
    (habs : s.veiculos_estacionados.lookup e.placa = none) :
    (s.processar_evento e).2.sucesso = false ∧
    (s.processar_evento e).2.acao = "negar_saida" ∧
    (s.processar_evento e).1.veiculos_estacionados = s.veiculos_estacionados := by
  simp [ServidorCentral.processar_evento, ServidorCentral.processar_saida,
    ServidorCentral.salvar_evento, hfech, hbloq, htipo, habs]

/-- Closed witness for C4: the empty server denies an exit of "ABC1234". -/
theorem processar_evento_saida_nao_encontrado_witness :
    (servidorInicial.processar_evento eventoSaidaABC).2.sucesso = false ∧
    (servidorInicial.processar_evento eventoSaidaABC).2.acao = "negar_saida" ∧
    (servidorInicial.processar_evento eventoSaidaABC).1.veiculos_estacionados =
      servidorInicial.veiculos_estacionados :=
  processar_evento_saida_nao_encontrado servidorInicial eventoSaidaABC rfl rfl rfl rfl

/-- **C5.** While the garage-closed flag is set, any Entry event — for any
plate — replies `sucesso = false`, `acao = "negar_entrada"`, and the whole
server state (in particular the parked-vehicle map and both administrative
flags) is unchanged. -/
theorem processar_evento_fechado_entrada (s : ServidorCentral) (e : Evento)
    (hfech : s.estacionamento_fechado = true)
    (htipo : e.tipo = .entrada) :
    (s.processar_evento e).2.sucesso = false ∧
    (s.processar_evento e).2.acao = "negar_entrada" ∧
    (s.processar_evento e).1 = s := by
  simp [ServidorCentral.processar_evento, hfech]

/-- Closed witness for C5: the closed garage denies entry of "ABC1234". -/
theorem processar_evento_fechado_entrada_witness :
    (servidorFechado.processar_evento eventoEntradaABC).2.sucesso = false ∧
    (servidorFechado.processar_evento eventoEntradaABC).2.acao = "negar_entrada" ∧
    (servidorFechado.processar_evento eventoEntradaABC).1 = servidorFechado :=
  processar_evento_fechado_entrada servidorFechado eventoEntradaABC rfl rfl

/-- **C10.** While the garage-closed flag is set, any Exit event — in
particular one whose plate is currently parked — replies `sucesso = false`
with `acao = "negar_entrada"` (not `"negar_saida"`), and the whole server
state (in particular the parked-vehicle map) is unchanged: a parked vehicle
cannot exit while the garage is closed. -/
theorem processar_evento_fechado_saida (s : ServidorCentral) (e : Evento)
    (hfech : s.estacionamento_fechado = true)
    (htipo : e.tipo = .saida) :
    (s.processar_evento e).2.sucesso = false ∧
    (s.processar_evento e).2.acao = "negar_entrada" ∧
    (s.processar_evento e).1 = s := by
  simp [ServidorCentral.processar_evento, hfech]

/-- Closed witness for C10: "ABC1234" is parked in the closed garage, yet
its exit is denied with action `"negar_entrada"` and the map keeps it. -/
theorem processar_evento_fechado_saida_witness :
    (servidorFechado.processar_evento eventoSaidaABC).2.sucesso = false ∧
    (servidorFechado.processar_evento eventoSaidaABC).2.acao = "negar_entrada" ∧
    (servidorFechado.processar_evento eventoSaidaABC).1 = servidorFechado :=
  processar_evento_fechado_saida servidorFechado eventoSaidaABC rfl rfl

/-! ## Theorems for C6 -/

/-- **C6, counterexample.** Processing an Entry event while the garage is
closed produces a denial response, yet appends no record at all to the event
log: not every processed event is logged. -/
theorem processar_evento_log_contraexemplo :
    (servidorFechado.processar_evento eventoEntradaABC).2.acao = "negar_entrada" ∧
    (servidorFechado.processar_evento eventoEntradaABC).1.eventos.length =
      servidorFechado.eventos.length := by
  constructor <;> rfl

/-- **C6, amended.** The event log is append-only, and a processed event
appends exactly one record when it is an Entry or Exit event that passes the
garage-closed and floor-blocked checks (including the already-parked and
not-parked denials), and appends no record when one of those checks fires or
the event has any other kind. -/
theorem processar_evento_log (s : ServidorCentral) (e : Evento) :
    ∃ novos : List Evento,
      (s.processar_evento e).1.eventos = s.eventos ++ novos ∧
      novos.length =
        (if s.estacionamento_fechado = true
            ∨ (s.andar_bloqueado && (e.andar == "terreo")) = true
            ∨ (e.tipo ≠ .entrada ∧ e.tipo ≠ .saida)
         then 0 else 1) := by
  by_cases hf : s.estacionamento_fechado = true
  · exact ⟨[], by simp [ServidorCentral.processar_evento, hf], by simp [hf]⟩
  · by_cases hb : (s.andar_bloqueado && (e.andar == "terreo")) = true
    · exact ⟨[], by simp [ServidorCentral.processar_evento, hf, hb], by simp [hf, hb]⟩
    · cases htipo : e.tipo with
      | entrada =>
        by_cases hp : (s.veiculos_estacionados.lookup e.placa).isSome = true
        · exact ⟨[e],
            by simp [ServidorCentral.processar_evento, ServidorCentral.processar_entrada,
              ServidorCentral.salvar_evento, hf, hb, htipo, hp],
            by simp [hf, hb, htipo]⟩
        · exact ⟨[{ e with status := .concluido }],
            by simp [ServidorCentral.processar_evento, ServidorCentral.processar_entrada,
              ServidorCentral.salvar_evento, hf, hb, htipo, hp],
            by simp [hf, hb, htipo]⟩
      | saida =>
        cases hp : s.veiculos_estacionados.lookup e.placa with
        | none =>
          exact ⟨[e],
            by simp [ServidorCentral.processar_evento, ServidorCentral.processar_saida,
              ServidorCentral.salvar_evento, hf, hb, htipo, hp],
            by simp [hf, hb, htipo]⟩
        | some veiculo =>
          refine ⟨[?_], ?_, by simp [hf, hb, htipo]⟩
          · exact
              let v := veiculo.processar_saida e.timestamp s.preco_por_minuto s.valor_minimo
              { e with
                valor_calculado := v.valor_calculado,
                tempo_permanencia_minutos := v.tempo_permanencia_minutos,
                status := StatusEvento.concluido }
          · simp [ServidorCentral.processar_evento, ServidorCentral.processar_saida,
              ServidorCentral.salvar_evento, hf, hb, htipo, hp]
      | erro =>
        exact ⟨[], by simp [ServidorCentral.processar_evento, hf, hb, htipo],
          by simp [hf, hb, htipo]⟩
      | manutencao =>
        exact ⟨[], by simp [ServidorCentral.processar_evento, hf, hb, htipo],
          by simp [hf, hb, htipo]⟩

/-! ## Theorems for C9 -/

/-- **C9, counterexample.** A malformed line does not drop the connection:
with a malformed line followed by a well-formed Entry event on the same
connection, the handler still writes one reply (for the second line), which
would be impossible had the connection been closed at the malformed line. -/
theorem handle_cliente_nao_derruba_conexao :
    (servidorInicial.handle_cliente
        [.malformada "isto nao e json", .valida eventoEntradaABC]).2.length = 1 ∧
    (servidorInicial.handle_mensagem (.malformada "isto nao e json")).2 = none := by
  constructor <;> rfl

/-- **C9, amended.** A malformed inbound message produces no `EventoResposta`
and no reply line and leaves the server state unchanged, but the connection
is kept: the handler keeps reading, and the remaining messages of the
connection are processed exactly as if the malformed line had not been
received. -/
theorem handle_mensagem_malformada (s : ServidorCentral) (raw : String) :
    s.handle_mensagem (.malformada raw) = (s, none) ∧
    ∀ rest : List Mensagem,
      s.handle_cliente (.malformada raw :: rest) = s.handle_cliente rest := by
  refine ⟨rfl, fun rest => ?_⟩
  simp [ServidorCentral.handle_cliente, ServidorCentral.handle_mensagem]

/-! ## Theorems for C7 -/

/-- Setting a currently-false entry of a boolean list to true increases the
number of true entries by one. -/
theorem count_true_set_true (l : List Bool) (i : Nat) (hi : i < l.length)
    (h : l.getD i false = false) :
    (l.set i true).count true = l.count true + 1 := by
  induction l generalizing i with
  | nil => simp at hi
  | cons b t ih =>
    cases i with
    | zero =>
      simp only [List.getD_cons_zero] at h
      subst h
      simp [List.count_cons]
    | succ i =>
      simp only [List.getD_cons_succ] at h
      simp only [List.length_cons] at hi
      simp only [List.set_cons_succ, List.count_cons, ih i (by omega) h]
      omega

/-- Setting a currently-true entry of a boolean list to false decreases the
number of true entries by one. -/
theorem count_true_set_false (l : List Bool) (i : Nat) (hi : i < l.length)
    (h : l.getD i false = true) :
    (l.set i false).count true + 1 = l.count true := by
  induction l generalizing i with
  | nil => simp at hi
  | cons b t ih =>
    cases i with
    | zero =>
      simp only [List.getD_cons_zero] at h
      subst h
      simp [List.count_cons]
    | succ i =>
      simp only [List.getD_cons_succ] at h
      simp only [List.length_cons] at hi
      simp only [List.set_cons_succ, List.count_cons]
      have := ih i (by omega) h
      omega

/-- The slot-board invariant: fixed slot count, and the free counter equals
the total minus the number of occupied flags.  Preserved by `ocupar_vaga`. -/
theorem placar_inv_ocupar (total : Nat) (p : PlacarService) (n : Int)
    (h1 : p.total_vagas = (total : Int)) (h2 : p.vagas.length = total)
    (h3 : (p.vagas.count true : Int) + p.vagas_livres = p.total_vagas) :
    (p.ocupar_vaga n).1.total_vagas = (total : Int) ∧
    (p.ocupar_vaga n).1.vagas.length = total ∧
    ((p.ocupar_vaga n).1.vagas.count true : Int) + (p.ocupar_vaga n).1.vagas_livres
      = (p.ocupar_vaga n).1.total_vagas := by
  unfold PlacarService.ocupar_vaga
  by_cases hr : n < 0 ∨ n ≥ p.total_vagas
  · rw [if_pos hr]
    exact ⟨h1, h2, h3⟩
  · rw [if_neg hr]
    by_cases hocc : p.vagas.getD n.toNat false = true
    · rw [if_pos hocc]
      exact ⟨h1, h2, h3⟩
    · rw [if_neg hocc]
      push_neg at hr
      simp only [Bool.not_eq_true] at hocc
      have hlen : p.vagas.length = total := h2
      have hlt : n.toNat < p.vagas.length := by omega
      have hcount := count_true_set_true p.vagas n.toNat hlt hocc
      refine ⟨h1, ?_, ?_⟩
      · show (p.vagas.set n.toNat true).length = total
        simpa using h2
      · show ((p.vagas.set n.toNat true).count true : Int) + (p.vagas_livres - 1)
          = p.total_vagas
        rw [hcount]
        push_cast
        omega

/-- The slot-board invariant is preserved by `liberar_vaga`. -/
theorem placar_inv_liberar (total : Nat) (p : PlacarService) (n : Int)
    (h1 : p.total_vagas = (total : Int)) (h2 : p.vagas.length = total)
    (h3 : (p.vagas.count true : Int) + p.vagas_livres = p.total_vagas) :
    (p.liberar_vaga n).1.total_vagas = (total : Int) ∧
    (p.liberar_vaga n).1.vagas.length = total ∧
    ((p.liberar_vaga n).1.vagas.count true : Int) + (p.liberar_vaga n).1.vagas_livres
      = (p.liberar_vaga n).1.total_vagas := by
  unfold PlacarService.liberar_vaga
  by_cases hr : n < 0 ∨ n ≥ p.total_vagas
  · rw [if_pos hr]
    exact ⟨h1, h2, h3⟩
  · rw [if_neg hr]
    by_cases hocc : p.vagas.getD n.toNat false = true
    · rw [if_neg (by rw [hocc]; decide)]
      push_neg at hr
      have hlt : n.toNat < p.vagas.length := by omega
      have hcount := count_true_set_false p.vagas n.toNat hlt hocc
      refine ⟨h1, ?_, ?_⟩
      · show (p.vagas.set n.toNat false).length = total
        simpa using h2
      · show ((p.vagas.set n.toNat false).count true : Int) + (p.vagas_livres + 1)
          = p.total_vagas
        push_cast
        omega
    · simp only [Bool.not_eq_true] at hocc
      rw [if_pos (by rw [hocc]; rfl)]
      exact ⟨h1, h2, h3⟩

/-- The full invariant along every reachable state. -/
theorem placar_inv_reachable (total : Nat) (p : PlacarService)
    (h : PlacarReachable total p) :
    p.total_vagas = (total : Int) ∧ p.vagas.length = total ∧
    (p.vagas.count true : Int) + p.vagas_livres = p.total_vagas := by
  induction h with
  | init =>
    refine ⟨rfl, by simp [PlacarService.init], ?_⟩
    simp [PlacarService.init, List.count_replicate]
  | ocupar q n hq ih => exact placar_inv_ocupar total q n ih.1 ih.2.1 ih.2.2
  | liberar q n hq ih => exact placar_inv_liberar total q n ih.1 ih.2.1 ih.2.2

/-- **C7.** In every slot-board state reachable by `ocupar_vaga` /
`liberar_vaga` calls from the initial all-free state, the number of occupied
slot flags plus the free counter equals the total slot count; `ocupar_vaga`
on an out-of-range index or an occupied slot, and `liberar_vaga` on an
out-of-range index or a free slot, return `false` and leave the whole board
state (flags and both counts) unchanged. -/
theorem placar_invariante_e_noops (total : Nat) (p : PlacarService)
    (h : PlacarReachable total p) :
    ((p.vagas.count true : Int) + p.vagas_livres = p.total_vagas) ∧
    (∀ n : Int, (n < 0 ∨ n ≥ p.total_vagas ∨ p.vagas.getD n.toNat false = true) →
      p.ocupar_vaga n = (p, false)) ∧
    (∀ n : Int, (n < 0 ∨ n ≥ p.total_vagas ∨ p.vagas.getD n.toNat false = false) →
      p.liberar_vaga n = (p, false)) := by
  refine ⟨(placar_inv_reachable total p h).2.2, fun n hn => ?_, fun n hn => ?_⟩
  · unfold PlacarService.ocupar_vaga
    by_cases hr : n < 0 ∨ n ≥ p.total_vagas
    · rw [if_pos hr]
    · rw [if_neg hr]
      have hocc : p.vagas.getD n.toNat false = true := by tauto
      rw [if_pos hocc]
  · unfold PlacarService.liberar_vaga
    by_cases hr : n < 0 ∨ n ≥ p.total_vagas
    · rw [if_pos hr]
    · rw [if_neg hr]
      have hfree : p.vagas.getD n.toNat false = false := by tauto
      rw [if_pos (by rw [hfree]; rfl)]

/-- Closed witness for C7: on the fresh 8-slot board the invariant holds,
occupying index `-1` fails without change, and freeing the already-free slot
0 fails without change. -/
theorem placar_invariante_e_noops_witness :
    (((PlacarService.init 8).vagas.count true : Int) + (PlacarService.init 8).vagas_livres
        = (PlacarService.init 8).total_vagas) ∧
    (PlacarService.init 8).ocupar_vaga (-1) = (PlacarService.init 8, false) ∧
    (PlacarService.init 8).liberar_vaga 0 = (PlacarService.init 8, false) := by
  have h := placar_invariante_e_noops 8 (PlacarService.init 8) PlacarReachable.init
  exact ⟨h.1, h.2.1 (-1) (Or.inl (by decide)),
    h.2.2 0 (Or.inr (Or.inr (by decide)))⟩

/-! ## Theorems for C8 -/

/-- **C8, counterexample.** `validar_placa` accepts `"abc1234"` although it
is not in the canonical plate format (its first three letters are lowercase,
not uppercase): the validation is not equivalent to the canonical
3-uppercase-letters + 4-digits format. -/
theorem validar_placa_contraexemplo :
    validar_placa ['a', 'b', 'c', '1', '2', '3', '4'] = true ∧
    placaFormatoCanonico ['a', 'b', 'c', '1', '2', '3', '4'] = false := by
  constructor <;> rfl

/-- **C8, amended.** `validar_placa` accepts a string iff it has exactly 7
characters, its first 3 characters are letters (uppercase **or** lowercase),
and its last 4 characters are digits; case is not checked. -/
theorem validar_placa_iff (placa : List Char) :
    validar_placa placa = true ↔
      (placa.length = 7 ∧ (placa.take 3).all Char.isAlpha = true ∧
        (placa.drop 3).all Char.isDigit = true) := by
  unfold validar_placa
  split_ifs with h1 h2 h3 h4 <;>
    simp_all [List.isEmpty_iff]

end Estacionamento
